import Mathlib

/-!
# Verification of the Coospo BK467 receiver core (BK467-Server.py)

Shallow embedding of the notification decoder and rate-estimation engine of
the BK467 BLE receiver.  Python unbounded integers are modelled as `Nat` and
`Int`, Python floats as `ℚ` (all float arithmetic in the source is plain
field arithmetic on decimal literals), the payload `self.data` as a
`List Nat` of byte values, and the fallible indexing operation (a Python
`IndexError`) as `Except String`.  The mutable fields of the `BK467` object
relevant to the estimators are gathered in a `State` record; the methods
become explicit state-passing functions.  The BLE transport (bleak), the
HTTP layer and the connectedness check are outside the embedded core; every
modelled accessor is considered in a connected session.
-/

namespace BK467

/-- A raw notification payload: the `self.data` field, a sequence of byte
values (initially the Python list `[0,0,0,0,0,0,0]`, later the `bytearray`
delivered by the transport). -/
abbrev Payload := List Nat

/-- Python `data[i]`: the byte at index `i`, raising `IndexError` when the
index is out of range (the source never uses negative indices on `data`). -/
def getByte (d : Payload) (i : Nat) : Except String Nat :=
  if h : i < d.length then .ok (d.get ⟨i, h⟩) else .error "IndexError"

/-- The detected mode: the two string values returned by `get_mode`,
namely `speed` and `cadence`. -/
inductive Mode where
  | speed
  | cadence
deriving DecidableEq, Repr

/-- The mutable fields of a `BK467` instance used by the decoder and the
estimators: the latest payload slot and the previous-sample registers of the
speed and cadence estimators (all initially `0`). -/
structure State where
  data : Payload
  prev_combo_csc_cum_wheel_rev : Nat
  prev_combo_csc_wheel_time : Nat
  prev_cum_crank_rev : Nat
  prev_crank_time : Nat
  prev_crank_staleness : Nat
  prev_rpm : ℚ
deriving DecidableEq, Repr

/-- The state right after `BK467.__init__`: `self.data = [0,0,0,0,0,0,0]`
and every estimator register at its class-level initial value `0`. -/
def initState : State where
  data := [0, 0, 0, 0, 0, 0, 0]
  prev_combo_csc_cum_wheel_rev := 0
  prev_combo_csc_wheel_time := 0
  prev_cum_crank_rev := 0
  prev_crank_time := 0
  prev_crank_staleness := 0
  prev_rpm := 0

/-- The wraparound-delta pattern shared by `calculate_cadence`
(lines 157 to 163) and the time delta of `get_wheel_rpm` (lines 106 to 108):
`current - previous`, and if the difference is negative the source adds the
literal `65535`. -/
def deltaImpl (current previous : Int) : Int :=
  let d := current - previous
  if d < 0 then d + 65535 else d

/-- `get_mode` (lines 89 to 93): inspects bit 0 and bit 1 of `data[0]` and
returns `cadence` when bit 1 is set, else `speed` (the computed
`is_speed_mode` is unused in the source). -/
def get_mode (s : State) : Except String Mode := do
  let b ← getByte s.data 0
  let _is_speed_mode : Bool := decide (0 < b &&& 0x01)
  let is_cadence_mode : Bool := decide (0 < b &&& 0x02)
  pure (if is_cadence_mode then Mode.cadence else Mode.speed)

/-- `get_cum_wheel_rev` (lines 126 to 129): `0` unless the mode is `speed`,
else `(data[4] << 24) + (data[3] << 16) + (data[2] << 8) + data[1]`. -/
def get_cum_wheel_rev (s : State) : Except String Nat := do
  let m ← get_mode s
  if m ≠ Mode.speed then
    pure 0
  else do
    let b4 ← getByte s.data 4
    let b3 ← getByte s.data 3
    let b2 ← getByte s.data 2
    let b1 ← getByte s.data 1
    pure ((b4 <<< 24) + (b3 <<< 16) + (b2 <<< 8) + b1)

/-- `get_last_wheel_time` (lines 131 to 134): `0` unless the mode is
`speed`, else `(data[6] << 8) + data[5]`. -/
def get_last_wheel_time (s : State) : Except String Nat := do
  let m ← get_mode s
  if m ≠ Mode.speed then
    pure 0
  else do
    let b6 ← getByte s.data 6
    let b5 ← getByte s.data 5
    pure ((b6 <<< 8) + b5)

/-- `get_cum_crank_rev` (lines 141 to 144): `0` unless the mode is
`cadence`, else `(data[2] << 8) + data[1]`. -/
def get_cum_crank_rev (s : State) : Except String Nat := do
  let m ← get_mode s
  if m ≠ Mode.cadence then
    pure 0
  else do
    let b2 ← getByte s.data 2
    let b1 ← getByte s.data 1
    pure ((b2 <<< 8) + b1)

/-- `get_last_crank_time` (lines 146 to 149): `0` unless the mode is
`cadence`, else `(data[4] << 8) + data[3]`. -/
def get_last_crank_time (s : State) : Except String Nat := do
  let m ← get_mode s
  if m ≠ Mode.cadence then
    pure 0
  else do
    let b4 ← getByte s.data 4
    let b3 ← getByte s.data 3
    pure ((b4 <<< 8) + b3)

/-- `get_wheel_rpm` (lines 98 to 116).  The rotation delta (line 105) is the
raw difference with no wraparound adjustment; only the time delta
(lines 106 to 108) gets the `+ 65535` adjustment (`deltaImpl`).  The literal
`(2048.0 if False else 1024.0)` of line 111 is the constant `1024.0`.
The previous-sample registers are overwritten unconditionally
(lines 113 to 114).  Returns the rpm together with the updated state. -/
def get_wheel_rpm (s : State) : Except String (ℚ × State) := do
  let cum_wheel_rev ← get_cum_wheel_rev s
  let last_wheel_time ← get_last_wheel_time s
  let wheel_rpm : ℚ := 0
  let delta_rotations : Int := (cum_wheel_rev : Int) - (s.prev_combo_csc_cum_wheel_rev : Int)
  let time_delta : Int := deltaImpl (last_wheel_time : Int) (s.prev_combo_csc_wheel_time : Int)
  let wheel_rpm : ℚ :=
    if time_delta ≠ 0 ∧ s.prev_combo_csc_cum_wheel_rev ≠ 0 then
      1024 * ((delta_rotations : ℚ) * 60) / (time_delta : ℚ)
    else wheel_rpm
  pure (wheel_rpm,
    { s with
      prev_combo_csc_cum_wheel_rev := cum_wheel_rev
      prev_combo_csc_wheel_time := last_wheel_time })

/-- `get_wheel_speed` (lines 118 to 124): derives km/h from the rpm using
the fixed circumference `0.622 * 3.14159265359`; returns `(kmph, rpm)` and
the state updated by `get_wheel_rpm`. -/
def get_wheel_speed (s : State) : Except String (ℚ × ℚ × State) := do
  let (rpm, s1) ← get_wheel_rpm s
  let wheel_circumference : ℚ := 0.622 * 3.14159265359
  let rps : ℚ := rpm / 60
  let mps : ℚ := wheel_circumference * rps
  let kmph : ℚ := mps * 3.6
  pure (kmph, rpm, s1)

/-- The inner helper `check_rpm` of `calculate_cadence` (lines 179 to 183):
pass a value `≤ 500` through, clamp anything larger to `0`. -/
def check_rpm (rpm : ℚ) : ℚ :=
  if rpm ≤ 500 then rpm else 0

/-- `calculate_cadence` (lines 156 to 185): the cadence estimator step.
Both the rotation delta and the time delta use the `+ 65535` wraparound
pattern (`deltaImpl`); a nonzero time delta computes a fresh rpm and resets
the staleness counter, a zero time delta reuses the previous rpm for up to
two consecutive calls and reports `0` from the third on; the
previous-sample registers are overwritten unconditionally
(lines 176 to 177) and the result goes through `check_rpm`. -/
def calculate_cadence (s : State) (cum_crank_rev last_crank_time : Nat) : ℚ × State :=
  let delta_rotations : Int := deltaImpl (cum_crank_rev : Int) (s.prev_cum_crank_rev : Int)
  let time_delta : Int := deltaImpl (last_crank_time : Int) (s.prev_crank_time : Int)
  let step : ℚ × Nat × ℚ :=
    if time_delta ≠ 0 then
      let time_mins : ℚ := (time_delta : ℚ) / 1024 / 60
      let rpm : ℚ := (delta_rotations : ℚ) / time_mins
      (rpm, 0, rpm)
    else if s.prev_crank_staleness < 2 then
      (s.prev_rpm, s.prev_crank_staleness + 1, s.prev_rpm)
    else
      (0, s.prev_crank_staleness, s.prev_rpm)
  let s1 : State :=
    { s with
      prev_cum_crank_rev := cum_crank_rev
      prev_crank_time := last_crank_time
      prev_crank_staleness := step.2.1
      prev_rpm := step.2.2 }
  (check_rpm step.1, s1)

/-- `get_cadence` (lines 136 to 139): `0` (state untouched) unless the mode
is `cadence`, else one `calculate_cadence` step on the decoded crank
fields. -/
def get_cadence (s : State) : Except String (ℚ × State) := do
  let m ← get_mode s
  if m ≠ Mode.cadence then
    pure (0, s)
  else do
    let c ← get_cum_crank_rev s
    let t ← get_last_crank_time s
    pure (calculate_cadence s c t)

/-- One polling tick of `generate_json_str` (lines 207 to 225) restricted to
its state-mutating reads: `get_wheel_speed` (which advances the wheel
estimator) followed by `get_cadence` (which advances the cadence estimator
when the mode is `cadence`); the remaining fields of the JSON object are
pure reads of `data`.  Returns `(kmph, wheel_rpm, cadence)` and the final
state. -/
def poll (s : State) : Except String ((ℚ × ℚ × ℚ) × State) := do
  let (kmph, rpm, s1) ← get_wheel_speed s
  let (cad, s2) ← get_cadence s1
  pure ((kmph, rpm, cad), s2)

/-- `n` successive polling ticks, collecting the `(kmph, wheel_rpm,
cadence)` outputs in order. -/
def pollN : Nat → State → Except String (List (ℚ × ℚ × ℚ) × State)
  | 0, s => .ok ([], s)
  | n + 1, s => do
    let (out, s1) ← poll s
    let (outs, s2) ← pollN n s1
    pure (out :: outs, s2)

/-- Runs the cadence estimator over a list of decoded
`(cum_crank_rev, last_crank_time)` samples in order, collecting the
reported rpm values. -/
def cadenceRun : State → List (Nat × Nat) → List ℚ × State
  | s, [] => ([], s)
  | s, (c, t) :: rest =>
    let r := calculate_cadence s c t
    let rr := cadenceRun r.2 rest
    (r.1 :: rr.1, rr.2)

/-- Modelled from the spec (section 4.3): the little-endian 16-bit value at
byte offset `i` of a payload (refinement target for the decoder
accessors). -/
def le16_at (d : Payload) (i : Nat) : Nat :=
  d.getD i 0 + 256 * d.getD (i + 1) 0

/-- Modelled from the spec (section 4.3): the little-endian 32-bit value at
byte offset `i` of a payload (refinement target for the decoder
accessors). -/
def le32_at (d : Payload) (i : Nat) : Nat :=
  d.getD i 0 + 256 * d.getD (i + 1) 0 + 65536 * d.getD (i + 2) 0
    + 16777216 * d.getD (i + 3) 0

/-- A speed-mode state whose cumulative wheel counter went backwards: the
previous register holds `5` while the payload encodes cumulative
revolutions `1` and event time `1024`. -/
def c3State : State :=
  { initState with data := [1, 1, 0, 0, 0, 0, 4], prev_combo_csc_cum_wheel_rev := 5 }

/-- A speed-mode state encoding ten new rotations in exactly one second:
the payload carries cumulative revolutions `110` and event time `1024`
against previous registers `100` and `0`. -/
def c6State : State :=
  { initState with data := [1, 110, 0, 0, 0, 0, 4], prev_combo_csc_cum_wheel_rev := 100 }

/-- A full-length speed-mode payload with distinct byte values. -/
def c8SpeedState : State := { initState with data := [1, 2, 3, 4, 5, 6, 7] }

/-- A full-length cadence-mode payload with distinct byte values. -/
def c8CadenceState : State := { initState with data := [2, 2, 3, 4, 5, 6, 7] }

/-- A cadence-mode state (flags byte `0x02`) with an all-zero body. -/
def c10CadenceState : State := { initState with data := [2, 0, 0, 0, 0, 0, 0] }

/-! ## Reduction lemmas for the embedded monadic accessors -/

@[simp]
theorem ok_bind {ε α β : Type} (a : α) (f : α → Except ε β) :
    (Except.ok a : Except ε α) >>= f = f a := rfl

@[simp]
theorem error_bind {ε α β : Type} (e : ε) (f : α → Except ε β) :
    (Except.error e : Except ε α) >>= f = Except.error e := rfl

@[simp]
theorem pure_eq_ok {ε α : Type} (a : α) :
    (pure a : Except ε α) = Except.ok a := rfl

@[simp]
theorem getByte_lt {d : Payload} {i : Nat} (h : i < d.length) :
    getByte d i = .ok (d.getD i 0) := by
  simp [getByte, h, List.getD_eq_getElem?_getD, List.getElem?_eq_getElem h]

@[simp]
theorem getByte_ge {d : Payload} {i : Nat} (h : d.length ≤ i) :
    getByte d i = .error "IndexError" := by
  have : ¬ i < d.length := by omega
  simp [getByte, this]

/-- Evaluation of one `get_wheel_rpm` step, given the decoded wheel fields:
the rotation delta is the raw difference, the time delta goes through
`deltaImpl`, and the previous-sample registers are overwritten with the
decoded values. -/
theorem get_wheel_rpm_eq (s : State) (c t : Nat)
    (hc : get_cum_wheel_rev s = .ok c) (ht : get_last_wheel_time s = .ok t) :
    get_wheel_rpm s = .ok
      ((if deltaImpl (t : Int) (s.prev_combo_csc_wheel_time : Int) ≠ 0 ∧
            s.prev_combo_csc_cum_wheel_rev ≠ 0 then
          1024 * ((((c : Int) - (s.prev_combo_csc_cum_wheel_rev : Int) : Int) : ℚ) * 60) /
            ((deltaImpl (t : Int) (s.prev_combo_csc_wheel_time : Int) : Int) : ℚ)
        else 0),
       { s with prev_combo_csc_cum_wheel_rev := c, prev_combo_csc_wheel_time := t }) := by
  simp [get_wheel_rpm, hc, ht]

theorem deltaImpl_add (a k : Nat) : deltaImpl ((a + k : Nat) : Int) (a : Int) = k := by
  simp only [deltaImpl]
  split <;> omega

theorem deltaImpl_self (a : Int) : deltaImpl a a = 0 := by
  simp [deltaImpl]

/-- A cadence step on a fresh sample `k` rotations and `m > 0` ticks ahead
of the previous registers: computes `rot_delta / (time_delta/1024/60)`,
resets the staleness counter and stores the rpm. -/
theorem calculate_cadence_fresh (s : State) (k m : Nat) (hm : m ≠ 0) :
    calculate_cadence s (s.prev_cum_crank_rev + k) (s.prev_crank_time + m) =
      (check_rpm ((k : ℚ) / ((m : ℚ) / 1024 / 60)),
       { s with prev_cum_crank_rev := s.prev_cum_crank_rev + k,
                prev_crank_time := s.prev_crank_time + m,
                prev_crank_staleness := 0,
                prev_rpm := (k : ℚ) / ((m : ℚ) / 1024 / 60) }) := by
  have hmi : ((m : Int) : ℚ) = (m : ℚ) := by push_cast; ring
  have hki : ((k : Int) : ℚ) = (k : ℚ) := by push_cast; ring
  simp only [calculate_cadence, deltaImpl_add, deltaImpl_self]
  have hm0 : (m : Int) ≠ 0 := by
    exact_mod_cast Nat.cast_ne_zero.mpr hm
  simp [hm0, hmi, hki]

/-- A cadence step on an unchanged sample while the staleness counter is
below `2`: reuses the stored rpm and increments the counter. -/
theorem calculate_cadence_stale_lt (s : State) (h : s.prev_crank_staleness < 2) :
    calculate_cadence s s.prev_cum_crank_rev s.prev_crank_time =
      (check_rpm s.prev_rpm,
       { s with prev_crank_staleness := s.prev_crank_staleness + 1 }) := by
  simp only [calculate_cadence, deltaImpl_self]
  simp [h]

/-- A cadence step on an unchanged sample once the staleness counter has
reached `2`: reports `0` and leaves the state unchanged. -/
theorem calculate_cadence_stale_ge (s : State) (h : 2 ≤ s.prev_crank_staleness) :
    calculate_cadence s s.prev_cum_crank_rev s.prev_crank_time = (0, s) := by
  have h2 : ¬ s.prev_crank_staleness < 2 := by omega
  simp only [calculate_cadence, deltaImpl_self]
  simp [h2, check_rpm]

theorem get_mode_init : get_mode initState = .ok Mode.speed := rfl

theorem get_wheel_rpm_init : get_wheel_rpm initState = .ok (0, initState) := by
  rw [get_wheel_rpm_eq initState 0 0 rfl rfl]
  norm_num [initState, deltaImpl]

theorem get_wheel_speed_init : get_wheel_speed initState = .ok (0, 0, initState) := by
  simp [get_wheel_speed, get_wheel_rpm_init]

theorem get_cadence_init : get_cadence initState = .ok (0, initState) := by
  simp [get_cadence, get_mode_init]

theorem poll_init : poll initState = .ok ((0, 0, 0), initState) := by
  simp [poll, get_wheel_speed_init, get_cadence_init]

/-! ## The claims -/

/-- Claim C1, counterexample.  The claim asserts that the delta used by the
estimators equals `(current - previous) mod 65536`, with
`current = 0, previous = 65535` yielding `1`.  The implementation adds
`65535` instead of the modulus `65536` to a negative difference, so that
input yields `0` while the claimed value is `1`. -/
theorem c1_delta_counterexample :
    deltaImpl 0 65535 = 0 ∧ ((0 : Int) - 65535) % 65536 = 1 := by
  constructor
  · rfl
  · decide

/-- Claim C1, amended.  For in-range inputs the implemented delta equals
`(current - previous) mod 65536` when `current ≥ previous` (in particular
`current = previous` yields `0`), but equals
`(current - previous) mod 65536 - 1` when `current < previous`, because the
implementation adds `65535` rather than the modulus `65536` to a negative
difference. -/
theorem c1_delta_amended (previous current : Int)
    (h1 : 0 ≤ previous) (h2 : previous < 65536) (h3 : 0 ≤ current) (h4 : current < 65536) :
    (previous ≤ current → deltaImpl current previous = (current - previous) % 65536) ∧
    (current < previous → deltaImpl current previous = (current - previous) % 65536 - 1) ∧
    (current = previous → deltaImpl current previous = 0) := by
  simp only [deltaImpl]
  refine ⟨fun h => ?_, fun h => ?_, fun h => ?_⟩ <;> split <;> omega

/-- Claim C1, witness for the amended theorem at
`previous = 3, current = 7` and at `previous = 65535, current = 0`. -/
theorem c1_delta_amended_witness :
    deltaImpl 7 3 = ((7 : Int) - 3) % 65536 ∧
    deltaImpl 0 65535 = ((0 : Int) - 65535) % 65536 - 1 := by
  constructor
  · exact (c1_delta_amended 3 7 (by norm_num) (by norm_num) (by norm_num) (by norm_num)).1
      (by norm_num)
  · exact (c1_delta_amended 65535 0 (by norm_num) (by norm_num) (by norm_num)
      (by norm_num)).2.1 (by norm_num)

/-- Claim C2, counterexample.  The claim asserts that bit 0 takes priority
and the flags byte `0x03` maps to speed mode; the implementation checks
bit 1 first, so `0x03` detects as cadence. -/
theorem c2_mode_counterexample :
    get_mode { initState with data := [0x03, 0, 0, 0, 0, 0, 0] } = .ok Mode.cadence ∧
    Mode.cadence ≠ Mode.speed := by
  exact ⟨rfl, by decide⟩

/-- Claim C2, amended.  Mode detection is deterministic on the flags byte:
any byte with bit 1 set detects as cadence (bit 1, not bit 0, takes
priority when both are set), and any byte with bit 1 clear detects as
speed, including the default `0x00`; concretely `0x01` gives speed, `0x02`
gives cadence, `0x00` gives speed and `0x03` gives cadence. -/
theorem c2_mode_amended (flags : Nat) (rest : List Nat) :
    (flags &&& 0x02 ≠ 0 → get_mode { initState with data := flags :: rest } = .ok Mode.cadence) ∧
    (flags &&& 0x02 = 0 → get_mode { initState with data := flags :: rest } = .ok Mode.speed) ∧
    get_mode { initState with data := [0x01] } = .ok Mode.speed ∧
    get_mode { initState with data := [0x02] } = .ok Mode.cadence ∧
    get_mode { initState with data := [0x00] } = .ok Mode.speed ∧
    get_mode { initState with data := [0x03] } = .ok Mode.cadence := by
  refine ⟨fun h => ?_, fun h => ?_, rfl, rfl, rfl, rfl⟩
  · have hp : 0 < flags &&& 0x02 := Nat.pos_of_ne_zero h
    simp [get_mode, hp]
  · simp [get_mode, h]

/-- Claim C2, witness for the amended theorem at flags `0x02` and `0x01`. -/
theorem c2_mode_amended_witness :
    get_mode { initState with data := [0x02] } = .ok Mode.cadence ∧
    get_mode { initState with data := [0x01] } = .ok Mode.speed := by
  exact ⟨((c2_mode_amended 2 []).1) (by norm_num), ((c2_mode_amended 1 []).2.1) (by norm_num)⟩

/-- Claim C3, counterexample.  The claim asserts that a negative raw wheel
rotation difference is wrapped by adding `65536`.  On `c3State` the raw
difference is `1 - 5 = -4` and the reported rpm is
`1024 * (-4 * 60) / 1024 = -240`; under the claimed wrap the delta would be
`-4 + 65536 = 65532` and the rpm `3931920`, so no wrap was applied. -/
theorem c3_wheel_counterexample :
    (get_wheel_rpm c3State).map Prod.fst = .ok (-240) ∧
    1024 * ((((1 : Int) - 5 + 65536 : Int) : ℚ) * 60) / 1024 = 3931920 ∧
    ((-240 : ℚ) ≠ 3931920) := by
  refine ⟨?_, by norm_num, by norm_num⟩
  rw [get_wheel_rpm_eq c3State 1 1024 rfl rfl]
  norm_num [c3State, initState, deltaImpl, Except.map]

/-- Claim C3, amended.  The speed estimator applies no wraparound to the
wheel rotation delta at all: whenever a rate is computed, the rpm uses the
raw (possibly negative) difference between the decoded cumulative wheel
counter and the previous register, while the time delta is wrapped by
adding `65535` when negative (`deltaImpl`). -/
theorem c3_wheel_delta_amended (s : State) (c t : Nat)
    (hc : get_cum_wheel_rev s = .ok c) (ht : get_last_wheel_time s = .ok t)
    (htd : deltaImpl (t : Int) (s.prev_combo_csc_wheel_time : Int) ≠ 0)
    (hprev : s.prev_combo_csc_cum_wheel_rev ≠ 0) :
    (get_wheel_rpm s).map Prod.fst =
      .ok (1024 * ((((c : Int) - (s.prev_combo_csc_cum_wheel_rev : Int) : Int) : ℚ) * 60) /
        ((deltaImpl (t : Int) (s.prev_combo_csc_wheel_time : Int) : Int) : ℚ)) := by
  rw [get_wheel_rpm_eq s c t hc ht]
  simp [Except.map, htd, hprev]

/-- Claim C3, witness for the amended theorem at `c3State`. -/
theorem c3_wheel_delta_amended_witness :
    (get_wheel_rpm c3State).map Prod.fst =
      .ok (1024 * (((((1 : Nat) : Int) - (c3State.prev_combo_csc_cum_wheel_rev : Int) : Int) : ℚ) * 60) /
        ((deltaImpl ((1024 : Nat) : Int) (c3State.prev_combo_csc_wheel_time : Int) : Int) : ℚ)) :=
  c3_wheel_delta_amended c3State 1 1024 rfl rfl (by decide) (by decide)

/-- Claim C4, counterexample.  The claim asserts that on a truncated payload
the decoder yields zero for the affected field rather than aborting; on the
three-byte speed-mode payload `[1, 0, 0]` the decoder reads `data[4]` and
aborts with an index error instead of returning `0`. -/
theorem c4_truncated_counterexample :
    get_cum_wheel_rev { initState with data := [1, 0, 0] } = .error "IndexError" ∧
    get_cum_wheel_rev { initState with data := [1, 0, 0] } ≠ .ok 0 := by
  refine ⟨rfl, ?_⟩
  intro h
  rw [show get_cum_wheel_rev { initState with data := [1, 0, 0] } =
    .error "IndexError" from rfl] at h
  exact Except.noConfusion h

/-- Claim C4, amended.  For every payload shorter than the byte offsets
required by the selected mode (fewer than 7 bytes in speed mode for the
event time, fewer than 5 for the wheel counter; fewer than 5 bytes in
cadence mode for the event time, fewer than 3 for the crank counter) the
decoder reads past the buffer and aborts with an index error; no degraded
zero-valued snapshot is produced. -/
theorem c4_truncated_amended (s : State) :
    (get_mode s = .ok Mode.speed → s.data.length < 7 →
      get_last_wheel_time s = .error "IndexError") ∧
    (get_mode s = .ok Mode.speed → s.data.length < 5 →
      get_cum_wheel_rev s = .error "IndexError") ∧
    (get_mode s = .ok Mode.cadence → s.data.length < 5 →
      get_last_crank_time s = .error "IndexError") ∧
    (get_mode s = .ok Mode.cadence → s.data.length < 3 →
      get_cum_crank_rev s = .error "IndexError") := by
  refine ⟨fun hm hl => ?_, fun hm hl => ?_, fun hm hl => ?_, fun hm hl => ?_⟩
  · have h6 : s.data.length ≤ 6 := by omega
    simp [get_last_wheel_time, hm, getByte_ge h6]
  · have h4 : s.data.length ≤ 4 := by omega
    simp [get_cum_wheel_rev, hm, getByte_ge h4]
  · have h4 : s.data.length ≤ 4 := by omega
    simp [get_last_crank_time, hm, getByte_ge h4]
  · have h2 : s.data.length ≤ 2 := by omega
    simp [get_cum_crank_rev, hm, getByte_ge h2]

/-- Claim C4, witness for the amended theorem on three-byte payloads in
each mode. -/
theorem c4_truncated_amended_witness :
    get_last_wheel_time { initState with data := [1, 0, 0] } = .error "IndexError" ∧
    get_last_crank_time { initState with data := [2, 0, 0] } = .error "IndexError" := by
  constructor
  · exact (c4_truncated_amended { initState with data := [1, 0, 0] }).1 rfl (by norm_num)
  · exact (c4_truncated_amended { initState with data := [2, 0, 0] }).2.2.1 rfl (by norm_num)

/-- Claim C5, confirmed.  From any estimator state, a valid crank sample
one rotation and 1024 ticks ahead of the previous registers followed by
three unchanged samples (time delta `0`) yields the rpm sequence
`[60, 60, 60, 0]`: the fresh sample computes 60 rpm, the first two stale
ticks reuse it while incrementing the staleness counter, and the third
stale tick reports `0`. -/
theorem c5_staleness (s : State) :
    (cadenceRun s [(s.prev_cum_crank_rev + 1, s.prev_crank_time + 1024),
        (s.prev_cum_crank_rev + 1, s.prev_crank_time + 1024),
        (s.prev_cum_crank_rev + 1, s.prev_crank_time + 1024),
        (s.prev_cum_crank_rev + 1, s.prev_crank_time + 1024)]).1 = [60, 60, 60, 0] := by
  have h60 : ((1 : Nat) : ℚ) / (((1024 : Nat) : ℚ) / 1024 / 60) = 60 := by norm_num
  have hch : check_rpm 60 = 60 := by norm_num [check_rpm]
  have h1 := calculate_cadence_fresh s 1 1024 (by norm_num)
  rw [h60] at h1
  set s1 : State := { s with prev_cum_crank_rev := s.prev_cum_crank_rev + 1, prev_crank_time := s.prev_crank_time + 1024, prev_crank_staleness := 0, prev_rpm := 60 } with hs1
  rw [hch] at h1
  have h2 := calculate_cadence_stale_lt s1 (by simp [hs1])
  have h3 := calculate_cadence_stale_lt { s1 with prev_crank_staleness := 1 } (by simp)
  have h4 := calculate_cadence_stale_ge { s1 with prev_crank_staleness := 2 } (by simp)
  simp only [cadenceRun, h1]
  simp only [hs1] at h2 h3 h4 ⊢
  simp only [h2]
  simp only [h3, h4, hch]

/-- Claim C6, confirmed.  The speed estimator reports `0` when the wrapped
time delta is zero or the previous cumulative register is the uninitialized
sentinel `0`, and otherwise `1024 * rot_delta * 60 / time_delta`; the speed
is `rpm / 60 * (0.622 * 3.14159265359) * 3.6` km/h; on `c6State`
(ten rotations in 1024 ticks from an initialized state) the rpm is `600`
and the speed lies strictly between `70.3` and `70.4`. -/
theorem c6_speed_estimator :
    (∀ (s : State) (c t : Nat), get_cum_wheel_rev s = .ok c → get_last_wheel_time s = .ok t →
      ((deltaImpl (t : Int) (s.prev_combo_csc_wheel_time : Int) = 0 ∨
          s.prev_combo_csc_cum_wheel_rev = 0) →
        (get_wheel_rpm s).map Prod.fst = .ok 0) ∧
      (deltaImpl (t : Int) (s.prev_combo_csc_wheel_time : Int) ≠ 0 →
        s.prev_combo_csc_cum_wheel_rev ≠ 0 →
        (get_wheel_rpm s).map Prod.fst =
          .ok (1024 * ((((c : Int) - (s.prev_combo_csc_cum_wheel_rev : Int) : Int) : ℚ) * 60) /
            ((deltaImpl (t : Int) (s.prev_combo_csc_wheel_time : Int) : Int) : ℚ)))) ∧
    (∀ (s s1 : State) (r : ℚ), get_wheel_rpm s = .ok (r, s1) →
      get_wheel_speed s = .ok (0.622 * 3.14159265359 * (r / 60) * 3.6, r, s1)) ∧
    ((get_wheel_rpm c6State).map Prod.fst = .ok 600 ∧
      (get_wheel_speed c6State).map Prod.fst =
        .ok ((0.622 : ℚ) * 3.14159265359 * (600 / 60) * 3.6) ∧
      70.3 < (0.622 : ℚ) * 3.14159265359 * (600 / 60) * 3.6 ∧
      (0.622 : ℚ) * 3.14159265359 * (600 / 60) * 3.6 < 70.4) := by
  have hwheel : ∀ (s : State) (c t : Nat), get_cum_wheel_rev s = .ok c →
      get_last_wheel_time s = .ok t →
      ((deltaImpl (t : Int) (s.prev_combo_csc_wheel_time : Int) = 0 ∨
          s.prev_combo_csc_cum_wheel_rev = 0) →
        (get_wheel_rpm s).map Prod.fst = .ok 0) ∧
      (deltaImpl (t : Int) (s.prev_combo_csc_wheel_time : Int) ≠ 0 →
        s.prev_combo_csc_cum_wheel_rev ≠ 0 →
        (get_wheel_rpm s).map Prod.fst =
          .ok (1024 * ((((c : Int) - (s.prev_combo_csc_cum_wheel_rev : Int) : Int) : ℚ) * 60) /
            ((deltaImpl (t : Int) (s.prev_combo_csc_wheel_time : Int) : Int) : ℚ))) := by
    intro s c t hc ht
    constructor
    · intro h
      rw [get_wheel_rpm_eq s c t hc ht]
      rcases h with h | h <;> simp [Except.map, h]
    · intro h1 h2
      rw [get_wheel_rpm_eq s c t hc ht]
      simp [Except.map, h1, h2]
  have hspeed : ∀ (s s1 : State) (r : ℚ), get_wheel_rpm s = .ok (r, s1) →
      get_wheel_speed s = .ok (0.622 * 3.14159265359 * (r / 60) * 3.6, r, s1) := by
    intro s s1 r h
    simp [get_wheel_speed, h]
  have hrpm600 : (get_wheel_rpm c6State).map Prod.fst = .ok 600 := by
    rw [get_wheel_rpm_eq c6State 110 1024 rfl rfl]
    norm_num [c6State, initState, deltaImpl, Except.map]
  refine ⟨hwheel, hspeed, hrpm600, ?_, by norm_num, by norm_num⟩
  have h600 : get_wheel_rpm c6State =
      .ok (600, { c6State with prev_combo_csc_cum_wheel_rev := 110, prev_combo_csc_wheel_time := 1024 }) := by
    rw [get_wheel_rpm_eq c6State 110 1024 rfl rfl]
    norm_num [c6State, initState, deltaImpl]
  rw [hspeed _ _ _ h600]
  simp [Except.map]

/-- Claim C6, witness: the zero branch and the speed formula applied at the
uninitialized state. -/
theorem c6_speed_estimator_witness :
    (get_wheel_rpm initState).map Prod.fst = .ok 0 ∧
    get_wheel_speed initState = .ok (0.622 * 3.14159265359 * ((0 : ℚ) / 60) * 3.6, 0, initState) := by
  constructor
  · exact (c6_speed_estimator.1 initState 0 0 rfl rfl).1 (Or.inr rfl)
  · exact c6_speed_estimator.2.1 initState initState 0 get_wheel_rpm_init

/-- Claim C7, confirmed.  The clamp `check_rpm` maps any rpm above `500` to
`0` and passes any rpm at most `500` unchanged; a cadence step whose
computed rpm is `600` (ten rotations in 1024 ticks) reports `0`. -/
theorem c7_outlier (rpm : ℚ) :
    (500 < rpm → check_rpm rpm = 0) ∧
    (rpm ≤ 500 → check_rpm rpm = rpm) ∧
    (∀ s : State,
      (calculate_cadence s (s.prev_cum_crank_rev + 10) (s.prev_crank_time + 1024)).1 = 0) := by
  refine ⟨fun h => ?_, fun h => ?_, fun s => ?_⟩
  · have h2 : ¬ rpm ≤ 500 := by linarith
    simp [check_rpm, h2]
  · simp [check_rpm, h]
  · rw [calculate_cadence_fresh s 10 1024 (by norm_num)]
    have h600 : ((10 : Nat) : ℚ) / (((1024 : Nat) : ℚ) / 1024 / 60) = 600 := by norm_num
    rw [h600]
    norm_num [check_rpm]

/-- Claim C7, witness: `check_rpm` at `600` and `300`, and the clamped
cadence step at the initial state. -/
theorem c7_outlier_witness :
    check_rpm 600 = 0 ∧ check_rpm 300 = 300 ∧
    (calculate_cadence initState (initState.prev_cum_crank_rev + 10)
      (initState.prev_crank_time + 1024)).1 = 0 := by
  refine ⟨(c7_outlier 600).1 (by norm_num), (c7_outlier 300).2.1 (by norm_num), ?_⟩
  exact (c7_outlier 0).2.2 initState

/-- Claim C8, confirmed.  On payloads of sufficient length the decoder
extracts, in speed mode, the little-endian 32-bit value at bytes 1 to 4 as
the cumulative wheel count and the little-endian 16-bit value at bytes
5 to 6 as the wheel event time; in cadence mode, the little-endian 16-bit
values at bytes 1 to 2 and 3 to 4 as the crank count and crank event time;
querying a field of the non-detected mode returns `0` instead of failing. -/
theorem c8_decoder (s : State) :
    (get_mode s = .ok Mode.speed → 7 ≤ s.data.length →
      get_cum_wheel_rev s = .ok (le32_at s.data 1) ∧
      get_last_wheel_time s = .ok (le16_at s.data 5)) ∧
    (get_mode s = .ok Mode.cadence → 5 ≤ s.data.length →
      get_cum_crank_rev s = .ok (le16_at s.data 1) ∧
      get_last_crank_time s = .ok (le16_at s.data 3)) ∧
    (get_mode s = .ok Mode.speed →
      get_cum_crank_rev s = .ok 0 ∧ get_last_crank_time s = .ok 0) ∧
    (get_mode s = .ok Mode.cadence →
      get_cum_wheel_rev s = .ok 0 ∧ get_last_wheel_time s = .ok 0) := by
  refine ⟨fun hm hl => ⟨?_, ?_⟩, fun hm hl => ⟨?_, ?_⟩, fun hm => ⟨?_, ?_⟩, fun hm => ⟨?_, ?_⟩⟩
  · have h1 : (1 : Nat) < s.data.length := by omega
    have h2 : (2 : Nat) < s.data.length := by omega
    have h3 : (3 : Nat) < s.data.length := by omega
    have h4 : (4 : Nat) < s.data.length := by omega
    simp [get_cum_wheel_rev, hm, getByte_lt h1, getByte_lt h2, getByte_lt h3, getByte_lt h4,
      le32_at, Nat.shiftLeft_eq]
    ring
  · have h5 : (5 : Nat) < s.data.length := by omega
    have h6 : (6 : Nat) < s.data.length := by omega
    simp [get_last_wheel_time, hm, getByte_lt h5, getByte_lt h6, le16_at, Nat.shiftLeft_eq]
    ring
  · have h1 : (1 : Nat) < s.data.length := by omega
    have h2 : (2 : Nat) < s.data.length := by omega
    simp [get_cum_crank_rev, hm, getByte_lt h1, getByte_lt h2, le16_at, Nat.shiftLeft_eq]
    ring
  · have h3 : (3 : Nat) < s.data.length := by omega
    have h4 : (4 : Nat) < s.data.length := by omega
    simp [get_last_crank_time, hm, getByte_lt h3, getByte_lt h4, le16_at, Nat.shiftLeft_eq]
    ring
  · simp [get_cum_crank_rev, hm]
  · simp [get_last_crank_time, hm]
  · simp [get_cum_wheel_rev, hm]
  · simp [get_last_wheel_time, hm]

/-- Claim C8, witness on the full-length payloads `c8SpeedState` and
`c8CadenceState`. -/
theorem c8_decoder_witness :
    get_cum_wheel_rev c8SpeedState = .ok (le32_at c8SpeedState.data 1) ∧
    get_last_wheel_time c8SpeedState = .ok (le16_at c8SpeedState.data 5) ∧
    get_cum_crank_rev c8CadenceState = .ok (le16_at c8CadenceState.data 1) ∧
    get_last_crank_time c8CadenceState = .ok (le16_at c8CadenceState.data 3) ∧
    get_cum_crank_rev c8SpeedState = .ok 0 ∧
    get_cum_wheel_rev c8CadenceState = .ok 0 := by
  have hs := c8_decoder c8SpeedState
  have hc := c8_decoder c8CadenceState
  have hms : get_mode c8SpeedState = .ok Mode.speed := rfl
  have hmc : get_mode c8CadenceState = .ok Mode.cadence := rfl
  have hl : (7 : Nat) ≤ c8SpeedState.data.length := by norm_num [c8SpeedState, initState]
  have hlc : (5 : Nat) ≤ c8CadenceState.data.length := by norm_num [c8CadenceState, initState]
  exact ⟨(hs.1 hms hl).1, (hs.1 hms hl).2, (hc.2.1 hmc hlc).1, (hc.2.1 hmc hlc).2,
    (hs.2.2.1 hms).1, (hc.2.2.2 hmc).1⟩

/-- Claim C9, confirmed.  In a connected session in which no notification
has ever been received (the payload slot still holds its all-zero initial
value), any number of polling ticks succeeds without error, every tick
reports speed `0`, wheel rpm `0` and cadence `0`, and the state returns to
the uninitialized `initState` after every tick. -/
theorem c9_uninitialized (n : Nat) :
    pollN n initState = .ok (List.replicate n ((0 : ℚ), (0 : ℚ), (0 : ℚ)), initState) := by
  induction n with
  | zero => simp [pollN]
  | succ n ih => simp [pollN, poll_init, ih, List.replicate_succ]

/-- Claim C10, confirmed.  When the detected mode is speed, `get_cadence`
returns `0` and the state — in particular all four cadence estimator
registers — is completely unchanged; by contrast, when the detected mode is
cadence, `get_wheel_rpm` still advances the wheel estimator state,
overwriting both previous-sample registers with the zeroed decoded
fields. -/
theorem c10_frame :
    (∀ s : State, get_mode s = .ok Mode.speed → get_cadence s = .ok (0, s)) ∧
    (∀ s : State, get_mode s = .ok Mode.cadence → ∃ r : ℚ,
      get_wheel_rpm s = .ok (r, { s with prev_combo_csc_cum_wheel_rev := 0, prev_combo_csc_wheel_time := 0 })) := by
  constructor
  · intro s hm
    simp [get_cadence, hm]
  · intro s hm
    have hc : get_cum_wheel_rev s = .ok 0 := by simp [get_cum_wheel_rev, hm]
    have ht : get_last_wheel_time s = .ok 0 := by simp [get_last_wheel_time, hm]
    exact ⟨_, get_wheel_rpm_eq s 0 0 hc ht⟩

/-- Claim C10, witness at the speed-mode initial state and the cadence-mode
state `c10CadenceState`. -/
theorem c10_frame_witness :
    get_cadence initState = .ok (0, initState) ∧
    ∃ r : ℚ, get_wheel_rpm c10CadenceState =
      .ok (r, { c10CadenceState with prev_combo_csc_cum_wheel_rev := 0, prev_combo_csc_wheel_time := 0 }) := by
  exact ⟨c10_frame.1 initState rfl, c10_frame.2 c10CadenceState rfl⟩

end BK467
